import Mathlib

/-!
Shallow embedding of the Muqaddas Network frontend (src/frontend/src/App.js,
the education screen of src/frontend/app/(tabs)/education.tsx) and of the
wallet/VIP backend that the repository documents describe. Money values are
rationals; the JavaScript NaN produced by a failed parseFloat is modelled by
Option.
-/

namespace Muqaddas

/-- Numeric value of a list of decimal digit characters. -/
def digitsToNat (cs : List Char) : ℕ :=
  cs.foldl (fun a c => a * 10 + (c.toNat - 48)) 0

/-- Embedding of JavaScript parseFloat: leading spaces, optional sign,
integer digits, optional fractional digits, optional exponent; trailing
characters are ignored; none models NaN (no digits at all). -/
def parseFloat (s : String) : Option ℚ :=
  let cs := (s.toList).dropWhile (fun c => c = ' ')
  let signed : ℚ × List Char :=
    match cs with
    | '-' :: r => (-1, r)
    | '+' :: r => (1, r)
    | _ => (1, cs)
  let intDs := signed.2.takeWhile Char.isDigit
  let rest1 := signed.2.dropWhile Char.isDigit
  let fracSplit : List Char × List Char :=
    match rest1 with
    | '.' :: r => (r.takeWhile Char.isDigit, r.dropWhile Char.isDigit)
    | _ => ([], rest1)
  if intDs.isEmpty && fracSplit.1.isEmpty then none
  else
    let mantissa : ℚ :=
      (digitsToNat intDs : ℚ) + (digitsToNat fracSplit.1 : ℚ) / (10 : ℚ) ^ fracSplit.1.length
    let expVal : ℤ :=
      match fracSplit.2 with
      | 'e' :: r =>
        match r with
        | '-' :: ds => -(digitsToNat (ds.takeWhile Char.isDigit) : ℤ)
        | '+' :: ds => (digitsToNat (ds.takeWhile Char.isDigit) : ℤ)
        | ds => (digitsToNat (ds.takeWhile Char.isDigit) : ℤ)
      | 'E' :: r =>
        match r with
        | '-' :: ds => -(digitsToNat (ds.takeWhile Char.isDigit) : ℤ)
        | '+' :: ds => (digitsToNat (ds.takeWhile Char.isDigit) : ℤ)
        | ds => (digitsToNat (ds.takeWhile Char.isDigit) : ℤ)
      | _ => 0
    some (signed.1 * mantissa * (10 : ℚ) ^ expVal)

/-- Embedding of parseFloat(amount || 0) in the breakdown rows of DonatePage:
the empty amount string is falsy and is replaced by 0 before parsing. -/
def parseAmountOrZero (s : String) : Option ℚ :=
  if s = "" then some 0 else parseFloat s

example : parseFloat "100" = some 100 := by simp [parseFloat, digitsToNat]
example : parseFloat "12.5" = some (25 / 2) := by
  simp [parseFloat, digitsToNat]; norm_num
example : parseFloat "" = none := by simp [parseFloat]
example : parseAmountOrZero "" = some 0 := by simp [parseAmountOrZero]

/-- The registered user record kept by AuthProvider (name, email, phone as in
the register form of App.js). -/
structure User where
  name : String
  email : String
  phone : String
deriving DecidableEq, Repr

/-- The three rows of the donation-breakdown panel rendered by DonatePage:
a charity row, a VIP gift income row and a family equity row. A none value
models the NaN shown when the amount string fails to parse. -/
structure DonationBreakdown where
  charity : ℚ
  vipIncome : Option ℚ
  familyEquity : Option ℚ
deriving DecidableEq, Repr

/-- The donation-breakdown panel of DonatePage with the two displayed
percentages as parameters. The charity row is the literal 5 rendered by the
JSX; the other rows multiply parseFloat(amount || 0) by the percentage. -/
def donationBreakdownWith (vipPct famPct : ℚ) (amount : String) : DonationBreakdown :=
  { charity := 5
    vipIncome := (parseAmountOrZero amount).map (fun a => a * vipPct)
    familyEquity := (parseAmountOrZero amount).map (fun a => a * famPct) }

/-- The breakdown as rendered by the source, with the constants 0.02 and 0.60
of App.js lines 691 and 695. -/
def donationBreakdown (amount : String) : DonationBreakdown :=
  donationBreakdownWith (2 / 100) (60 / 100) amount

/-- The component state of DonatePage together with the authenticated user it
reads from AuthContext. -/
structure DonateState where
  user : Option User
  amount : String
  donorName : String
  donorPhone : String
  message : String
  submitted : Bool
  loading : Bool
deriving DecidableEq, Repr

/-- The breakdown panel as a function of the whole page state: it reads only
the amount string. -/
def breakdownOfState (st : DonateState) : DonationBreakdown :=
  donationBreakdown st.amount

/-- The JSON body posted to /donations by DonatePage.handleSubmit: the four
fields amount, donor_name, donor_phone and message. -/
structure DonationPayload where
  amount : Option ℚ
  donor_name : String
  donor_phone : String
  message : String
deriving DecidableEq, Repr

/-- The payload built by handleSubmit from the form fields: amount is
parseFloat of the entered string, the rest are copied verbatim. -/
def donationPayloadOf (st : DonateState) : DonationPayload :=
  { amount := parseFloat st.amount
    donor_name := st.donorName
    donor_phone := st.donorPhone
    message := st.message }

/-- An HTTP request issued through the api helper. -/
structure ApiRequest where
  path : String
  payload : DonationPayload
deriving DecidableEq, Repr

/-- The observable outcome of one run of DonatePage.handleSubmit. -/
structure SubmitOutcome where
  requests : List ApiRequest
  navigateTo : Option String
  state : DonateState
deriving DecidableEq, Repr

/-- DonatePage.handleSubmit on its success path: with no user it returns
early, navigating to /login and issuing nothing; with a user it posts the
payload to /donations once, then sets submitted (the finally clause clears
loading). -/
def handleSubmit (st : DonateState) : SubmitOutcome :=
  match st.user with
  | none => { requests := [], navigateTo := some "/login", state := st }
  | some _ =>
    { requests := [{ path := "/donations", payload := donationPayloadOf st }]
      navigateTo := none
      state := { st with submitted := true, loading := false } }

/-- What DonatePage renders: the success card echoing the amount string, the
login prompt, or the form with the breakdown panel. -/
inductive DonateView where
  | success (amountShown : String)
  | loginPrompt
  | form (breakdown : DonationBreakdown)
deriving DecidableEq, Repr

/-- The render function of DonatePage: the success card when submitted,
otherwise the login prompt for a signed-out visitor, otherwise the form. -/
def renderDonatePage (st : DonateState) : DonateView :=
  if st.submitted then DonateView.success st.amount
  else if st.user.isNone then DonateView.loginPrompt
  else DonateView.form (donationBreakdown st.amount)

/-- What a route renders: the loading placeholder, a redirect, or a page. -/
inductive RouteView where
  | loading
  | redirect (dest : String)
  | content (page : String)
deriving DecidableEq, Repr

/-- The ProtectedRoute component of App.js: loading placeholder while auth is
loading, redirect to /login without a user, otherwise the children. -/
def protectedRoute (loading : Bool) (user : Option User) (children : RouteView) : RouteView :=
  if loading then RouteView.loading
  else if user.isNone then RouteView.redirect "/login"
  else children

/-- The /dashboard route of App.js: DashboardPage wrapped in ProtectedRoute. -/
def dashboardRoute (loading : Bool) (user : Option User) : RouteView :=
  protectedRoute loading user (RouteView.content "dashboard")

/-- The AuthProvider state: the token and user localStorage entries plus the
React user state. -/
structure AuthState where
  storeToken : Option String
  storeUser : Option String
  user : Option User
deriving DecidableEq, Repr

/-- JSON.stringify of the user record, as stored under the user key. -/
def jsonStringifyUser (u : User) : String :=
  "\x7b\"name\":\"" ++ u.name ++ "\",\"email\":\"" ++ u.email ++
    "\",\"phone\":\"" ++ u.phone ++ "\"\x7d"

/-- The login function of AuthProvider: set both localStorage entries and the
user state. -/
def authLogin (token : String) (userData : User) (s : AuthState) : AuthState :=
  { s with
    storeToken := some token
    storeUser := some (jsonStringifyUser userData)
    user := some userData }

/-- The logout function of AuthProvider: remove both localStorage entries and
reset the user state to null. -/
def authLogout (s : AuthState) : AuthState :=
  { s with storeToken := none, storeUser := none, user := none }

/-- The signed-out authentication state: no stored token, no stored user, no
user in React state. -/
def signedOutAuth : AuthState :=
  { storeToken := none, storeUser := none, user := none }

/-- A configured VIP level: a name and the cumulative recharge threshold that
unlocks it. -/
structure VipLevel where
  name : String
  rechargeRequired : ℚ
deriving DecidableEq, Repr

def defaultVipLevel : VipLevel := { name := "", rechargeRequired := 0 }

/-- Modelled from the spec: the backend VIP status endpoint (server.py) is not
under src, only the test document describes it. The spec defines a VIP tier
as a discrete named level unlocked once the cumulative recharge total of a
user crosses a configured threshold, so the eligible level reported is the
number of configured levels whose threshold the total has reached. -/
def eligibleLevel (levels : List VipLevel) (totalRecharged : ℚ) : ℕ :=
  (levels.filter (fun l => l.rechargeRequired ≤ totalRecharged)).length

/-- A wallet transaction record with type, amount and status, as listed by the
transactions endpoint. -/
structure WalletTx where
  txType : String
  amount : ℚ
  status : String
deriving DecidableEq, Repr

/-- The per-user wallet record of the spec: coins, bonus and stars balances,
the transaction history, the VIP cumulative recharge total and the
notification list. -/
structure WalletState where
  coinsBalance : ℚ
  bonusBalance : ℚ
  starsBalance : ℚ
  transactions : List WalletTx
  vipTotalRecharged : ℚ
  notifications : List String
deriving DecidableEq, Repr

/-- Modelled from the spec: the wallet deposit endpoint (server.py) is not
under src, only the test document describes it. Per the spec and that
document, a deposit adds the amount to the coins balance, creates one
transaction record, updates the VIP recharge total by the amount and sends a
notification. -/
def walletDeposit (w : WalletState) (d : ℚ) : WalletState :=
  { w with
    coinsBalance := w.coinsBalance + d
    transactions := w.transactions ++ [{ txType := "deposit", amount := d, status := "completed" }]
    vipTotalRecharged := w.vipTotalRecharged + d
    notifications := w.notifications ++ ["Deposit Successful"] }

/-- A mind game as served by /education/mind-games (education.tsx). -/
structure MindGame where
  game_id : String
  name : String
  description : String
  category : String
  difficulty : String
  coins_reward : ℤ
  time_limit_seconds : ℤ
deriving DecidableEq, Repr

/-- The body posted to /education/play-mind-game by handlePlayGame. -/
structure PlayMindGamePayload where
  game_id : String
  score : ℤ
  time_taken : ℤ
deriving DecidableEq, Repr

/-- handlePlayGame of education.tsx with the two Math.random() draws made
explicit as rationals in the half-open unit interval: score is
Math.floor(r1 * 100) and time_taken is Math.floor(r2 * time_limit_seconds). -/
def handlePlayGame (g : MindGame) (r1 r2 : ℚ) : PlayMindGamePayload :=
  { game_id := g.game_id
    score := Int.floor (r1 * 100)
    time_taken := Int.floor (r2 * (g.time_limit_seconds : ℚ)) }

/-- The donate page seen as a pair of its outputs, with the two displayed
percentages as parameters: the rendered breakdown panel and the payload that
a submission would post. -/
structure DonatePageRender where
  breakdown : DonationBreakdown
  submitPayload : DonationPayload
deriving DecidableEq, Repr

def donatePageRender (vipPct famPct : ℚ) (st : DonateState) : DonatePageRender :=
  { breakdown := donationBreakdownWith vipPct famPct st.amount
    submitPayload := donationPayloadOf st }

/-! Concrete values used by the witnesses. -/

def userExample : User :=
  { name := "Asha", email := "asha@example.com", phone := "+91 7000000000" }

def donateStateExample : DonateState :=
  { user := some userExample
    amount := "150"
    donorName := "Asha"
    donorPhone := "+91 7000000000"
    message := "get well soon"
    submitted := false
    loading := false }

def loggedOutDonateState : DonateState :=
  { user := none
    amount := "150"
    donorName := "Guest"
    donorPhone := ""
    message := ""
    submitted := false
    loading := false }

def vipLevelsExample : List VipLevel :=
  [{ name := "Basic", rechargeRequired := 0 },
   { name := "Bronze", rechargeRequired := 500 },
   { name := "Silver", rechargeRequired := 2000 },
   { name := "Gold", rechargeRequired := 5000 },
   { name := "Platinum", rechargeRequired := 10000 },
   { name := "Diamond", rechargeRequired := 25000 }]

def mindGameExample : MindGame :=
  { game_id := "game_memory"
    name := "Memory Match"
    description := "match the cards"
    category := "mind games"
    difficulty := "easy"
    coins_reward := 50
    time_limit_seconds := 60 }

end Muqaddas

/-! Helper lemmas for the VIP eligibility model. -/

lemma eligibleLevel_mono_total (levels : List Muqaddas.VipLevel) (t1 t2 : ℚ) (h : t1 ≤ t2) :
    Muqaddas.eligibleLevel levels t1 ≤ Muqaddas.eligibleLevel levels t2 := by
  induction levels with
  | nil => simp [Muqaddas.eligibleLevel]
  | cons l ls ih =>
    by_cases hl : l.rechargeRequired ≤ t1
    · have hl2 : l.rechargeRequired ≤ t2 := le_trans hl h
      simp only [Muqaddas.eligibleLevel, List.filter_cons] at ih ⊢
      simp [hl, hl2]
      omega
    · by_cases hl2 : l.rechargeRequired ≤ t2
      · simp only [Muqaddas.eligibleLevel, List.filter_cons] at ih ⊢
        simp [hl, hl2]
        omega
      · simp only [Muqaddas.eligibleLevel, List.filter_cons] at ih ⊢
        simp [hl, hl2]
        omega

lemma eligibleLevel_index_iff (levels : List Muqaddas.VipLevel) (t : ℚ)
    (hs : levels.Pairwise (fun a b => a.rechargeRequired ≤ b.rechargeRequired))
    (i : ℕ) (hi : i < levels.length) :
    i < Muqaddas.eligibleLevel levels t ↔
      (levels.getD i Muqaddas.defaultVipLevel).rechargeRequired ≤ t := by
  induction levels generalizing i with
  | nil => simp at hi
  | cons l ls ih =>
    rw [List.pairwise_cons] at hs
    obtain ⟨hhead, htail⟩ := hs
    by_cases hl : l.rechargeRequired ≤ t
    · cases i with
      | zero =>
        simp only [Muqaddas.eligibleLevel, List.filter_cons, List.getD_cons_zero]
        simp [hl]
      | succ j =>
        have hj : j < ls.length := by simpa using hi
        have hrec := ih htail j hj
        simp only [Muqaddas.eligibleLevel, List.filter_cons, List.getD_cons_succ] at hrec ⊢
        rw [← hrec]
        simp [hl]
    · have hall : ∀ x ∈ l :: ls, ¬ x.rechargeRequired ≤ t := by
        intro x hx
        rcases List.mem_cons.mp hx with rfl | hx2
        · exact hl
        · intro hxle
          exact hl (le_trans (hhead x hx2) hxle)
      have hfil : Muqaddas.eligibleLevel (l :: ls) t = 0 := by
        simp only [Muqaddas.eligibleLevel, List.length_eq_zero]
        rw [List.filter_eq_nil_iff]
        intro x hx
        simpa using hall x hx
      rw [hfil]
      simp only [Nat.not_lt_zero, false_iff]
      have hmem : (l :: ls).getD i Muqaddas.defaultVipLevel ∈ l :: ls := by
        rw [List.getD_eq_getElem _ _ hi]
        exact List.getElem_mem hi
      exact hall _ hmem

/-- C1: the claim that all three displayed buckets are fixed percentages of
the entered amount is false on the code: the charity row of the breakdown is
the literal 5 rupees for every amount, so no single percentage reproduces it
at both 100 and 200. -/
theorem c1_counterexample :
    ¬ ∃ p : ℚ,
      (Muqaddas.donationBreakdown "100").charity = p * 100 ∧
      (Muqaddas.donationBreakdown "200").charity = p * 200 := by
  rintro ⟨p, h1, h2⟩
  have e1 : (Muqaddas.donationBreakdown "100").charity = 5 := by
    simp [Muqaddas.donationBreakdown, Muqaddas.donationBreakdownWith]
  have e2 : (Muqaddas.donationBreakdown "200").charity = 5 := by
    simp [Muqaddas.donationBreakdown, Muqaddas.donationBreakdownWith]
  rw [e1] at h1
  rw [e2] at h2
  linarith

/-- C1 (amended): for every donation amount a entered on the donate page, the
displayed split shows a charity-fund share equal to the fixed amount of 5
rupees regardless of a, a VIP-income share equal to 2 percent of a, and a
family-equity share equal to 60 percent of a. -/
theorem c1_donation_split (s : String) (a : ℚ)
    (h : Muqaddas.parseAmountOrZero s = some a) :
    (Muqaddas.donationBreakdown s).charity = 5 ∧
    (Muqaddas.donationBreakdown s).vipIncome = some (a * (2 / 100)) ∧
    (Muqaddas.donationBreakdown s).familyEquity = some (a * (60 / 100)) := by
  simp [Muqaddas.donationBreakdown, Muqaddas.donationBreakdownWith, h]

theorem c1_donation_split_witness :
    Muqaddas.parseAmountOrZero "100" = some 100 ∧
    ((Muqaddas.donationBreakdown "100").charity = 5 ∧
     (Muqaddas.donationBreakdown "100").vipIncome = some (100 * (2 / 100)) ∧
     (Muqaddas.donationBreakdown "100").familyEquity = some (100 * (60 / 100))) := by
  have h : Muqaddas.parseAmountOrZero "100" = some 100 := by
    simp [Muqaddas.parseAmountOrZero, Muqaddas.parseFloat, Muqaddas.digitsToNat]
  exact ⟨h, c1_donation_split "100" 100 h⟩

/-- C2: for a threshold configuration sorted by increasing recharge threshold,
a tier is among the eligible ones exactly when the cumulative recharge total
has reached its configured threshold, and the eligible level is monotone in
the recharge total. -/
theorem c2_vip_tier (levels : List Muqaddas.VipLevel) (total t1 t2 : ℚ) (i : ℕ)
    (hs : levels.Pairwise (fun a b => a.rechargeRequired ≤ b.rechargeRequired))
    (hi : i < levels.length) (ht : t1 ≤ t2) :
    (i < Muqaddas.eligibleLevel levels total ↔
      (levels.getD i Muqaddas.defaultVipLevel).rechargeRequired ≤ total) ∧
    Muqaddas.eligibleLevel levels t1 ≤ Muqaddas.eligibleLevel levels t2 :=
  ⟨eligibleLevel_index_iff levels total hs i hi, eligibleLevel_mono_total levels t1 t2 ht⟩

theorem c2_vip_tier_witness :
    (Muqaddas.vipLevelsExample.Pairwise
       (fun a b => a.rechargeRequired ≤ b.rechargeRequired)) ∧
    2 < Muqaddas.vipLevelsExample.length ∧
    (500 : ℚ) ≤ 2000 ∧
    ((2 < Muqaddas.eligibleLevel Muqaddas.vipLevelsExample 2000 ↔
        (Muqaddas.vipLevelsExample.getD 2 Muqaddas.defaultVipLevel).rechargeRequired ≤ 2000) ∧
     Muqaddas.eligibleLevel Muqaddas.vipLevelsExample 500 ≤
       Muqaddas.eligibleLevel Muqaddas.vipLevelsExample 2000) := by
  have hs : Muqaddas.vipLevelsExample.Pairwise
      (fun a b => a.rechargeRequired ≤ b.rechargeRequired) := by
    norm_num [Muqaddas.vipLevelsExample, List.pairwise_cons]
  have hi : 2 < Muqaddas.vipLevelsExample.length := by
    norm_num [Muqaddas.vipLevelsExample]
  have ht : (500 : ℚ) ≤ 2000 := by norm_num
  exact ⟨hs, hi, ht, c2_vip_tier Muqaddas.vipLevelsExample 2000 500 2000 2 hs hi ht⟩

/-- C3: the family-equity percentage reaches only the rendered breakdown, not
the submission: changing the displayed percentage leaves the posted payload
unchanged, and the payload consists of exactly the four form fields amount,
donor_name, donor_phone and message. -/
theorem c3_family_equity_display_only (p q : ℚ) (st : Muqaddas.DonateState) :
    (Muqaddas.donatePageRender (2 / 100) p st).submitPayload =
      (Muqaddas.donatePageRender (2 / 100) q st).submitPayload ∧
    (Muqaddas.donatePageRender (2 / 100) p st).submitPayload =
      { amount := Muqaddas.parseFloat st.amount
        donor_name := st.donorName
        donor_phone := st.donorPhone
        message := st.message } := by
  simp [Muqaddas.donatePageRender, Muqaddas.donationPayloadOf]

/-- C4: when an authenticated user submits the donation form, exactly one
POST to /donations is issued whose amount field is the numeric parse of the
entered amount string, and on success the page renders the success view
echoing that same entered amount string. -/
theorem c4_submit_posts_once (st : Muqaddas.DonateState) (u : Muqaddas.User)
    (h : st.user = some u) :
    (Muqaddas.handleSubmit st).requests =
      [{ path := "/donations", payload := Muqaddas.donationPayloadOf st }] ∧
    ((Muqaddas.handleSubmit st).requests.map (fun r => r.payload.amount)) =
      [Muqaddas.parseFloat st.amount] ∧
    Muqaddas.renderDonatePage (Muqaddas.handleSubmit st).state =
      Muqaddas.DonateView.success st.amount := by
  simp [Muqaddas.handleSubmit, h, Muqaddas.donationPayloadOf, Muqaddas.renderDonatePage]

theorem c4_submit_posts_once_witness :
    Muqaddas.donateStateExample.user = some Muqaddas.userExample ∧
    ((Muqaddas.handleSubmit Muqaddas.donateStateExample).requests =
       [{ path := "/donations",
          payload := Muqaddas.donationPayloadOf Muqaddas.donateStateExample }] ∧
     ((Muqaddas.handleSubmit Muqaddas.donateStateExample).requests.map
         (fun r => r.payload.amount)) =
       [Muqaddas.parseFloat Muqaddas.donateStateExample.amount] ∧
     Muqaddas.renderDonatePage (Muqaddas.handleSubmit Muqaddas.donateStateExample).state =
       Muqaddas.DonateView.success Muqaddas.donateStateExample.amount) :=
  ⟨rfl, c4_submit_posts_once Muqaddas.donateStateExample Muqaddas.userExample rfl⟩

/-- C5: the breakdown panel is a pure function of the entered amount string:
two page states agreeing on the amount render identical charity, VIP-income
and family-equity values, whatever the user or other fields are. -/
theorem c5_breakdown_pure (st1 st2 : Muqaddas.DonateState)
    (h : st1.amount = st2.amount) :
    Muqaddas.breakdownOfState st1 = Muqaddas.breakdownOfState st2 := by
  simp [Muqaddas.breakdownOfState, h]

theorem c5_breakdown_pure_witness :
    Muqaddas.donateStateExample.amount = Muqaddas.loggedOutDonateState.amount ∧
    Muqaddas.breakdownOfState Muqaddas.donateStateExample =
      Muqaddas.breakdownOfState Muqaddas.loggedOutDonateState :=
  ⟨rfl, c5_breakdown_pure Muqaddas.donateStateExample Muqaddas.loggedOutDonateState rfl⟩

/-- C6: a deposit of d adds exactly d to the coins balance, appends exactly
one transaction record, adds d to the VIP cumulative recharge total, and
leaves the bonus and stars balances unchanged. -/
theorem c6_wallet_deposit (w : Muqaddas.WalletState) (d : ℚ) :
    (Muqaddas.walletDeposit w d).coinsBalance = w.coinsBalance + d ∧
    (Muqaddas.walletDeposit w d).transactions.length = w.transactions.length + 1 ∧
    (Muqaddas.walletDeposit w d).vipTotalRecharged = w.vipTotalRecharged + d ∧
    (Muqaddas.walletDeposit w d).bonusBalance = w.bonusBalance ∧
    (Muqaddas.walletDeposit w d).starsBalance = w.starsBalance := by
  simp [Muqaddas.walletDeposit]

/-- C7: with no authenticated user and loading complete, the /dashboard route
renders the redirect to /login and not the dashboard content, and submitting
the donate form issues no request, navigates to /login and leaves the page
state unchanged. -/
theorem c7_unauthenticated_blocked (st : Muqaddas.DonateState)
    (h : st.user = none) :
    Muqaddas.dashboardRoute false st.user = Muqaddas.RouteView.redirect "/login" ∧
    Muqaddas.dashboardRoute false st.user ≠ Muqaddas.RouteView.content "dashboard" ∧
    (Muqaddas.handleSubmit st).requests = [] ∧
    (Muqaddas.handleSubmit st).navigateTo = some "/login" ∧
    (Muqaddas.handleSubmit st).state = st := by
  simp [Muqaddas.dashboardRoute, Muqaddas.protectedRoute, Muqaddas.handleSubmit, h]

theorem c7_unauthenticated_blocked_witness :
    Muqaddas.loggedOutDonateState.user = none ∧
    (Muqaddas.dashboardRoute false Muqaddas.loggedOutDonateState.user =
       Muqaddas.RouteView.redirect "/login" ∧
     Muqaddas.dashboardRoute false Muqaddas.loggedOutDonateState.user ≠
       Muqaddas.RouteView.content "dashboard" ∧
     (Muqaddas.handleSubmit Muqaddas.loggedOutDonateState).requests = [] ∧
     (Muqaddas.handleSubmit Muqaddas.loggedOutDonateState).navigateTo = some "/login" ∧
     (Muqaddas.handleSubmit Muqaddas.loggedOutDonateState).state =
       Muqaddas.loggedOutDonateState) :=
  ⟨rfl, c7_unauthenticated_blocked Muqaddas.loggedOutDonateState rfl⟩

/-- C8: for every token and user record, logout after login removes both the
token and user localStorage entries and resets the user state to null, so the
composite is the identity on the signed-out authentication state. -/
theorem c8_logout_after_login (t : String) (u : Muqaddas.User) (s : Muqaddas.AuthState) :
    Muqaddas.authLogout (Muqaddas.authLogin t u s) = Muqaddas.signedOutAuth ∧
    (Muqaddas.authLogout (Muqaddas.authLogin t u s)).storeToken = none ∧
    (Muqaddas.authLogout (Muqaddas.authLogin t u s)).storeUser = none ∧
    (Muqaddas.authLogout (Muqaddas.authLogin t u s)).user = none :=
  ⟨rfl, rfl, rfl, rfl⟩

/-- C9: for a mind game whose time limit is at least one second and any two
random draws in the unit interval, the submitted score is an integer between
0 and 99 and the submitted time taken is an integer between 0 and
time_limit_seconds minus one, hence strictly below the time limit. -/
theorem c9_mind_game_bounds (g : Muqaddas.MindGame) (r1 r2 : ℚ)
    (h1 : 0 ≤ r1) (h2 : r1 < 1) (h3 : 0 ≤ r2) (h4 : r2 < 1)
    (hL : 1 ≤ g.time_limit_seconds) :
    0 ≤ (Muqaddas.handlePlayGame g r1 r2).score ∧
    (Muqaddas.handlePlayGame g r1 r2).score ≤ 99 ∧
    0 ≤ (Muqaddas.handlePlayGame g r1 r2).time_taken ∧
    (Muqaddas.handlePlayGame g r1 r2).time_taken ≤ g.time_limit_seconds - 1 := by
  refine ⟨?_, ?_, ?_, ?_⟩
  · exact Int.floor_nonneg.mpr (by positivity)
  · have hb : r1 * 100 < ((100 : ℤ) : ℚ) := by push_cast; nlinarith
    have := Int.floor_lt.mpr hb
    simp only [Muqaddas.handlePlayGame]
    omega
  · exact Int.floor_nonneg.mpr (by positivity)
  · have hL0 : (0 : ℚ) < (g.time_limit_seconds : ℚ) := by
      exact_mod_cast lt_of_lt_of_le Int.zero_lt_one hL
    have hb : r2 * (g.time_limit_seconds : ℚ) < ((g.time_limit_seconds : ℤ) : ℚ) := by
      nlinarith
    have := Int.floor_lt.mpr hb
    simp only [Muqaddas.handlePlayGame]
    omega

theorem c9_mind_game_bounds_witness :
    (0 : ℚ) ≤ 1 / 2 ∧ (1 / 2 : ℚ) < 1 ∧ (0 : ℚ) ≤ 1 / 3 ∧ (1 / 3 : ℚ) < 1 ∧
    1 ≤ Muqaddas.mindGameExample.time_limit_seconds ∧
    (0 ≤ (Muqaddas.handlePlayGame Muqaddas.mindGameExample (1 / 2) (1 / 3)).score ∧
     (Muqaddas.handlePlayGame Muqaddas.mindGameExample (1 / 2) (1 / 3)).score ≤ 99 ∧
     0 ≤ (Muqaddas.handlePlayGame Muqaddas.mindGameExample (1 / 2) (1 / 3)).time_taken ∧
     (Muqaddas.handlePlayGame Muqaddas.mindGameExample (1 / 2) (1 / 3)).time_taken ≤
       Muqaddas.mindGameExample.time_limit_seconds - 1) := by
  refine ⟨by norm_num, by norm_num, by norm_num, by norm_num,
    by norm_num [Muqaddas.mindGameExample], ?_⟩
  exact c9_mind_game_bounds Muqaddas.mindGameExample (1 / 2) (1 / 3)
    (by norm_num) (by norm_num) (by norm_num) (by norm_num)
    (by norm_num [Muqaddas.mindGameExample])
